import Mathlib

/- Verification of the outbound-message pipeline of the signalmeow sending
module (`pkg/signalmeow/sending.go`), via a shallow embedding in Lean.

Bytes are modelled as natural numbers and byte slices as lists of naturals.
Effectful collaborators (session store, prekey fetch, libsignal encryption,
WebSocket transport) are modelled as oracle fields of an environment
structure; fallible Go calls become `Except`-valued definitions. -/

namespace Signalmeow

instance {ε α : Type} [DecidableEq ε] [DecidableEq α] : DecidableEq (Except ε α) := fun x y =>
  match x, y with
  | .error a, .error b =>
    if h : a = b then .isTrue (h ▸ rfl) else .isFalse fun hc => h (Except.error.inj hc)
  | .error _, .ok _ => .isFalse fun hc => Except.noConfusion hc
  | .ok _, .error _ => .isFalse fun hc => Except.noConfusion hc
  | .ok a, .ok b =>
    if h : a = b then .isTrue (h ▸ rfl) else .isFalse fun hc => h (Except.ok.inj hc)

/-! ## Padding codec: `padBlock` and `addPadding` -/

/-- `padBlock` from sending.go: writes the terminator byte 0x80 at `pos` and
zero-fills the rest of the block; errors when `pos` is out of range. -/
def padBlock (block : List Nat) (pos : Nat) : Except String (List Nat) :=
  if block.length ≤ pos then
    .error "Padding error: position exceeds block length"
  else
    .ok (block.take pos ++ 0x80 :: List.replicate (block.length - (pos + 1)) 0)

/-- `addPadding` from sending.go: version < 2 is an error, version 2 returns
the contents unchanged, version ≥ 3 pads to a multiple of 160 bytes. -/
def addPadding (version : Nat) (contents : List Nat) : Except String (List Nat) :=
  if version < 2 then
    .error ("Unknown version " ++ toString version)
  else if version = 2 then
    .ok contents
  else
    let messageLength := contents.length
    let messageLengthWithTerminator := messageLength + 1
    let messagePartCount :=
      if messageLengthWithTerminator % 160 ≠ 0 then
        messageLengthWithTerminator / 160 + 1
      else
        messageLengthWithTerminator / 160
    let messageLengthWithPadding := messagePartCount * 160
    let buffer := contents ++ List.replicate (messageLengthWithPadding - messageLength) 0
    match padBlock buffer messageLength with
    | .error e => .error ("Invalid message padding: " ++ e)
    | .ok b => .ok b

lemma partCount_mul (L : Nat) :
    (if (L + 1) % 160 ≠ 0 then (L + 1) / 160 + 1 else (L + 1) / 160) * 160 =
      160 * ((L + 160) / 160) := by
  by_cases h : (L + 1) % 160 = 0 <;> simp [h] <;> omega

lemma le_padded_len (L : Nat) : L + 1 ≤ 160 * ((L + 160) / 160) := by
  omega

/-- The version-3 branch of `addPadding`, in closed form. -/
lemma addPadding_three (contents : List Nat) :
    addPadding 3 contents =
      .ok (contents ++ 0x80 ::
        List.replicate (160 * ((contents.length + 160) / 160) - (contents.length + 1)) 0) := by
  have hle := le_padded_len contents.length
  have htake :
      (contents ++ List.replicate (160 * ((contents.length + 160) / 160) - contents.length) 0).take
        contents.length = contents := by
    rw [List.take_append_eq_append_take]
    simp
  have hcount :
      contents.length + (160 * ((contents.length + 160) / 160) - contents.length) -
        (contents.length + 1) = 160 * ((contents.length + 160) / 160) - (contents.length + 1) := by
    omega
  simp only [addPadding, padBlock]
  rw [partCount_mul contents.length]
  simp only [List.length_append, List.length_replicate]
  rw [if_neg (by omega : ¬(3 : Nat) < 2), if_neg (by omega : ¬(3 : Nat) = 2),
    if_neg (by omega), htake, hcount]

lemma getD_replicate_zero (m j : Nat) : (List.replicate m (0 : Nat)).getD j 0 = 0 := by
  induction m generalizing j with
  | zero => simp [List.getD]
  | succ m ih =>
    cases j with
    | zero => simp [List.replicate]
    | succ j => simp [List.replicate, List.getD_cons_succ, ih j]

/-- C1: for a plaintext of length `L` padded at protocol version 3, `addPadding`
returns a buffer of length `P = 160 * ⌈(L+1)/160⌉` whose first `L` bytes equal
the plaintext, whose byte at position `L` is 0x80, and whose bytes above `L`
are zero; a plaintext of length 159 pads to 160 bytes and one of length 160
pads to 320 bytes with the terminator at index 160. Version 2 returns the
plaintext unchanged, and every version < 2 yields an error. -/
theorem claim_C1_addPadding (contents : List Nat) :
    (∀ v, v < 2 → addPadding v contents = .error ("Unknown version " ++ toString v)) ∧
    addPadding 2 contents = .ok contents ∧
    (∃ p, addPadding 3 contents = .ok p ∧
      p.length = 160 * ((contents.length + 1 + 159) / 160) ∧
      p.take contents.length = contents ∧
      p.getD contents.length 0 = 0x80 ∧
      (∀ i, contents.length < i → i < 160 * ((contents.length + 1 + 159) / 160) →
        p.getD i 0 = 0) ∧
      (contents.length = 159 → p.length = 160) ∧
      (contents.length = 160 → p.length = 320 ∧ p.getD 160 0 = 0x80)) := by
  refine ⟨?_, ?_, ?_⟩
  · intro v hv
    interval_cases v <;> rfl
  · rfl
  · have h3 := addPadding_three contents
    have hle := le_padded_len contents.length
    have hP : contents.length + 1 + 159 = contents.length + 160 := by omega
    rw [hP]
    have hlen :
        (contents ++ 0x80 ::
          List.replicate (160 * ((contents.length + 160) / 160) - (contents.length + 1)) 0).length =
          160 * ((contents.length + 160) / 160) := by
      simp only [List.length_append, List.length_cons, List.length_replicate]
      omega
    refine ⟨_, h3, hlen, ?_, ?_, ?_, ?_, ?_⟩
    · rw [List.take_append_eq_append_take]
      simp
    · rw [List.getD_append_right _ _ _ _ (Nat.le_refl _), Nat.sub_self]
      exact List.getD_cons_zero
    · intro i h1 h2
      rw [List.getD_append_right _ _ _ _ (by omega)]
      have hi : i - contents.length = i - contents.length - 1 + 1 := by omega
      rw [hi, List.getD_cons_succ]
      exact getD_replicate_zero _ _
    · intro h
      rw [hlen, h]
    · intro h
      refine ⟨by rw [hlen, h], ?_⟩
      rw [List.getD_append_right _ _ _ _ (by omega), h, Nat.sub_self]
      exact List.getD_cons_zero

/-- Witness for C1: the hypotheses of `claim_C1_addPadding` discharged at a
concrete plaintext and version. -/
theorem claim_C1_addPadding_witness :
    (1 : Nat) < 2 ∧ addPadding 1 [9, 9] = .error ("Unknown version " ++ toString 1) ∧
      addPadding 2 [9, 9] = .ok [9, 9] := by
  have h := claim_C1_addPadding [9, 9]
  exact ⟨by omega, h.1 1 (by omega), h.2.1⟩

/-! ## Sender-certificate cache: `senderCertificate`

`Client.senderCertificate` keeps two cache slots (`SenderCertificateNoE164`
and `SenderCertificateWithE164`).  `GetExpiration` is modelled as a field of
the certificate (`none` = the FFI call fails); the network fetch (HTTP
request, JSON decode, `DeserializeSenderCertificate`) is an oracle.  The
outcome records the returned value, the updated cache and how many network
fetches were performed. -/

/-- A sender certificate: `certTag` identifies the opaque credential,
`expirationMS` is what `GetExpiration` reports (`none` = the read fails). -/
structure SenderCert where
  certTag : Nat
  expirationMS : Option Int
deriving DecidableEq

/-- The two cache slots held on the client, keyed by the include-E164 flag. -/
structure CertCache where
  senderCertificateNoE164 : Option SenderCert
  senderCertificateWithE164 : Option SenderCert
deriving DecidableEq

def CertCache.get (cache : CertCache) (e164 : Bool) : Option SenderCert :=
  if e164 then cache.senderCertificateWithE164 else cache.senderCertificateNoE164

def CertCache.set (cache : CertCache) (e164 : Bool) (v : Option SenderCert) : CertCache :=
  if e164 then { cache with senderCertificateWithE164 := v }
  else { cache with senderCertificateNoE164 := v }

/-- `1 * exfmt.Day`, in milliseconds. -/
def oneDayMS : Int := 86400000

/-- Environment of one `senderCertificate` call: the current time and the
result of `GET /v1/certificate/delivery`.  The outer `Except` is an HTTP or
JSON-decode failure (returned before the cache is touched); the inner one is
`DeserializeSenderCertificate` (whose result is cached even on failure, as a
cleared slot). -/
structure CertFetchEnv where
  nowMS : Int
  fetchResult : Except String (Except String SenderCert)

structure CertOutcome where
  result : Except String SenderCert
  cache : CertCache
  fetches : Nat
deriving DecidableEq

/-- The part of `senderCertificate` from the HTTP request down. -/
def fetchCertificate (env : CertFetchEnv) (e164 : Bool) (cache : CertCache) : CertOutcome :=
  match env.fetchResult with
  | .error e => ⟨.error e, cache, 1⟩
  | .ok (.error e) => ⟨.error e, cache.set e164 none, 1⟩
  | .ok (.ok cert) => ⟨.ok cert, cache.set e164 (some cert), 1⟩

/-- `Client.senderCertificate`: serve from the cache slot when it holds a
certificate that expires more than a day from now; clear the slot and
refetch when it is close to expiry; fall through to the fetch (logging only)
when the expiration cannot be read. -/
def senderCertificate (env : CertFetchEnv) (e164 : Bool) (cache : CertCache) : CertOutcome :=
  match cache.get e164 with
  | some cached =>
    match cached.expirationMS with
    | none => fetchCertificate env e164 cache
    | some expiry =>
      if expiry - env.nowMS < oneDayMS then
        fetchCertificate env e164 (cache.set e164 none)
      else
        ⟨.ok cached, cache, 0⟩
  | none => fetchCertificate env e164 cache

lemma fetchCertificate_fetches (env : CertFetchEnv) (e164 : Bool) (cache : CertCache) :
    (fetchCertificate env e164 cache).fetches = 1 := by
  unfold fetchCertificate
  cases h : env.fetchResult with
  | error e => rfl
  | ok inner => cases inner <;> rfl

/-- C5 counterexample setup: a cached certificate whose expiration read
fails, and a fetch that would deliver a fresh certificate. -/
def c5CachedCert : SenderCert := ⟨0, none⟩

def c5FreshCert : SenderCert := ⟨1, some 999⟩

def c5Env : CertFetchEnv := ⟨0, .ok (.ok c5FreshCert)⟩

def c5Cache : CertCache := ⟨some c5CachedCert, none⟩

/-- C5 is false on the code: when the cached certificate's expiration read
fails, `senderCertificate` does NOT return the cached certificate without a
network fetch — it falls through to the fetch, performs one network request
and returns the freshly fetched certificate. -/
theorem claim_C5_counterexample :
    ¬((senderCertificate c5Env false c5Cache).result = .ok c5CachedCert ∧
      (senderCertificate c5Env false c5Cache).fetches = 0) := by
  decide

/-- C5 amended: if a sender certificate is cached and reading its expiration
fails, `senderCertificate` logs a warning and falls through to the network
fetch without clearing the slot: the call behaves exactly like the fetch
path and performs one network fetch (so the cached certificate is not simply
returned). -/
theorem claim_C5_expiry_read_failure (env : CertFetchEnv) (e164 : Bool) (cache : CertCache)
    (c : SenderCert) (hc : cache.get e164 = some c) (hexp : c.expirationMS = none) :
    senderCertificate env e164 cache = fetchCertificate env e164 cache ∧
    (senderCertificate env e164 cache).fetches = 1 := by
  have h1 : senderCertificate env e164 cache = fetchCertificate env e164 cache := by
    simp only [senderCertificate, hc, hexp]
  exact ⟨h1, by rw [h1]; exact fetchCertificate_fetches env e164 cache⟩

/-- Witness for C5 (amended) at a concrete cache state. -/
theorem claim_C5_expiry_read_failure_witness :
    c5Cache.get false = some c5CachedCert ∧ c5CachedCert.expirationMS = none ∧
      (senderCertificate c5Env false c5Cache).fetches = 1 := by
  have h := claim_C5_expiry_read_failure c5Env false c5Cache c5CachedCert (by rfl) (by rfl)
  exact ⟨rfl, rfl, h.2⟩

lemma CertCache.get_set (cache : CertCache) (e164 : Bool) (v : Option SenderCert) :
    (cache.set e164 v).get e164 = v := by
  cases e164 <;> rfl

/-- C6: a cache slot whose certificate expires more than 24 h from now is
served from the cache with no network fetch; a slot below the 24 h window is
cleared and refetched; and two retrievals with the same flag, the first on
an empty slot and the second within the validity window, issue exactly one
network fetch in total. -/
theorem claim_C6_cert_cache_validity (env env' : CertFetchEnv) (e164 : Bool)
    (cache : CertCache) (c : SenderCert) (expiry : Int) :
    (cache.get e164 = some c → c.expirationMS = some expiry →
      expiry - env.nowMS > oneDayMS →
      senderCertificate env e164 cache = ⟨.ok c, cache, 0⟩) ∧
    (cache.get e164 = some c → c.expirationMS = some expiry →
      expiry - env.nowMS < oneDayMS →
      senderCertificate env e164 cache = fetchCertificate env e164 (cache.set e164 none) ∧
      (senderCertificate env e164 cache).fetches = 1) ∧
    (cache.get e164 = none → env.fetchResult = .ok (.ok c) → c.expirationMS = some expiry →
      expiry - env'.nowMS > oneDayMS →
      (senderCertificate env e164 cache).fetches = 1 ∧
      (senderCertificate env e164 cache).result = .ok c ∧
      senderCertificate env' e164 (senderCertificate env e164 cache).cache =
        ⟨.ok c, (senderCertificate env e164 cache).cache, 0⟩) := by
  refine ⟨?_, ?_, ?_⟩
  · intro hc hexp hfar
    simp only [senderCertificate, hc, hexp]
    rw [if_neg (by omega)]
  · intro hc hexp hnear
    have h1 : senderCertificate env e164 cache = fetchCertificate env e164 (cache.set e164 none) := by
      simp only [senderCertificate, hc, hexp]
      rw [if_pos (by omega)]
    exact ⟨h1, by rw [h1]; exact fetchCertificate_fetches env e164 _⟩
  · intro hc hfetch hexp hfar
    have h1 : senderCertificate env e164 cache = ⟨.ok c, cache.set e164 (some c), 1⟩ := by
      simp only [senderCertificate, fetchCertificate, hc, hfetch]
    refine ⟨by rw [h1], by rw [h1], ?_⟩
    rw [h1]
    simp only [senderCertificate, CertCache.get_set, hexp]
    rw [if_neg (by omega)]

/-- Witness for C6 at a concrete empty-then-populated cache. -/
theorem claim_C6_cert_cache_validity_witness :
    let env : CertFetchEnv := ⟨0, .ok (.ok ⟨3, some (3 * oneDayMS)⟩)⟩
    let cache : CertCache := ⟨none, none⟩
    (senderCertificate env false cache).fetches = 1 ∧
      (senderCertificate env false cache).result = .ok ⟨3, some (3 * oneDayMS)⟩ ∧
      senderCertificate env false (senderCertificate env false cache).cache =
        ⟨.ok ⟨3, some (3 * oneDayMS)⟩, (senderCertificate env false cache).cache, 0⟩ := by
  exact (claim_C6_cert_cache_validity _ _ false _ ⟨3, some (3 * oneDayMS)⟩
    (3 * oneDayMS)).2.2 rfl rfl rfl (by norm_num [oneDayMS])

/-! ## Wire data model

`signalpb.Content` and the protobuf sub-messages the send path inspects.
Optional protobuf fields become `Option`s; fields never inspected by
sending.go are collapsed into an opaque `rest` component. -/

/-- Protocol constants (values per the upstream protobuf enums). -/
def Envelope_PREKEY_BUNDLE : Nat := 3

def Envelope_CIPHERTEXT : Nat := 1

def Envelope_UNIDENTIFIED_SENDER : Nat := 6

def CiphertextMessageTypeWhisper : Nat := 2

def CiphertextMessageTypePreKey : Nat := 3

def ReceiptMessage_DELIVERY : Nat := 0

def ReceiptMessage_READ : Nat := 1

def ContentHintDefault : Nat := 0

def ContentHintImplicit : Nat := 2

/-- ServiceID: kind ∈ {ACI, PNI} plus a UUID (modelled as a natural). -/
inductive ServiceIDKind where
  | aci
  | pni
deriving DecidableEq

structure ServiceID where
  kind : ServiceIDKind
  uuid : Nat
deriving DecidableEq

/-- `ServiceID.String()`: the ACI UUID, or `PNI:` + UUID for a PNI. -/
def ServiceID.wireString (s : ServiceID) : String :=
  match s.kind with
  | .aci => toString s.uuid
  | .pni => "PNI:" ++ toString s.uuid

/-- `signalpb.DataMessage`: the timestamp and profile key are the fields the
send path reads or writes; everything else is opaque in `rest`. -/
structure DataMessage where
  timestamp : Nat
  profileKey : Option (List Nat)
  rest : Nat
deriving DecidableEq

structure EditMessage where
  targetSentTimestamp : Nat
  dataMessage : Option DataMessage
deriving DecidableEq

structure ReceiptMessage where
  rtype : Nat
  timestamps : List Nat
deriving DecidableEq

structure UnidentifiedDeliveryStatus where
  destinationServiceId : String
  unidentified : Bool
  destinationPniIdentityKey : Option (List Nat)
deriving DecidableEq

/-- `signalpb.SyncMessage_Sent`. -/
structure SyncSent where
  message : Option DataMessage
  editMessage : Option EditMessage
  destinationServiceId : Option String
  destinationE164 : Option String
  timestamp : Option Nat
  expirationStartTimestamp : Nat
  unidentifiedStatus : List UnidentifiedDeliveryStatus
deriving DecidableEq

structure SyncRead where
  timestamp : Nat
  senderAci : String
deriving DecidableEq

/-- `signalpb.SyncMessage`: `sent`, `request` and `read` are the fields the
send path constructs or inspects. -/
structure SyncMessage where
  sent : Option SyncSent
  request : Option Nat
  read : List SyncRead
deriving DecidableEq

/-- `signalpb.Content`. -/
structure Content where
  dataMessage : Option DataMessage
  editMessage : Option EditMessage
  receiptMessage : Option ReceiptMessage
  typingMessage : Option Nat
  syncMessage : Option SyncMessage
  callMessage : Option Unit
  storyMessage : Option Unit
  pniSignatureMessage : Option Unit
deriving DecidableEq

/-- A `Content` with every field unset (protobuf zero value). -/
def emptyContent : Content :=
  ⟨none, none, none, none, none, none, none, none⟩

/-- `content.GetReceiptMessage().GetType()`: 0 (= DELIVERY) when the receipt
message or its type field is absent. -/
def getReceiptType (c : Content) : Nat :=
  (c.receiptMessage.map ReceiptMessage.rtype).getD 0

/-- `isSyncMessageUrgent` from sending.go. -/
def isSyncMessageUrgent (sm : SyncMessage) : Bool :=
  sm.sent.isSome || sm.request.isSome

/-- `isUrgent` from sending.go. -/
def isUrgent (c : Content) : Bool :=
  c.dataMessage.isSome || c.callMessage.isSome || c.storyMessage.isSome ||
    c.editMessage.isSome ||
    (match c.syncMessage with
     | some sm => isSyncMessageUrgent sm
     | none => false)

/-- `getContentHint` from sending.go (the Data/Edit resendable case is
commented out in the source and falls through to Default). -/
def getContentHint (c : Content) : Nat :=
  if c.typingMessage.isSome || c.receiptMessage.isSome then ContentHintImplicit
  else ContentHintDefault

/-! ## Per-device message construction and `sendContent`

The client state and its effectful collaborators are collected in `SendEnv`.
Oracles keyed by a natural take the retry count of the attempt (for the
transport and the 409/410/428 response bodies) or a device id (for
per-device encryption). -/

/-- One session-store entry for the recipient: the device address and the
remote registration id carried by the session record. -/
structure Session where
  deviceID : Nat
  registrationID : Nat
deriving DecidableEq

/-- `MyMessage`: one outgoing envelope (the base64 encoding of the ciphertext
is kept as the raw byte list). -/
structure MyMessage where
  type : Nat
  destinationDeviceID : Nat
  destinationRegistrationID : Nat
  content : List Nat
deriving DecidableEq

/-- `MyMessages`: the JSON batch for one recipient. -/
structure MyMessages where
  timestamp : Nat
  online : Bool
  urgent : Bool
  messages : List MyMessage
deriving DecidableEq

/-- Decoded JSON body of a 409 response (`missingDevices`/`extraDevices`;
`parseError` models `json.Unmarshal` failing). -/
structure Body409 where
  parseError : Bool
  missingDevices : Option (List Nat)
  extraDevices : Option (List Nat)
deriving DecidableEq

/-- Client state plus collaborator oracles for one `sendContent` call. -/
structure SendEnv where
  selfACI : Nat
  selfPNI : Nat
  selfDeviceID : Nat
  /-- `AccountRecord.GetPhoneNumberSharingMode() == EVERYBODY`. -/
  phoneSharingEverybody : Bool
  /-- `ProfileKeyForSignalID(ctx, cli.Store.ACI)`. -/
  ownProfileKey : Except String (List Nat)
  /-- `ProfileKeyForSignalID(ctx, recipient.UUID)`; `ok none` = key absent. -/
  recipientProfileKey : Nat → Except String (Option Nat)
  /-- `profileKey.DeriveAccessKey()`; `none` = derivation fails. -/
  deriveAccessKey : Nat → Option Nat
  /-- `ACISessionStore.AllSessionsForServiceID` on first query. -/
  sessionsFirst : Except String (List Session)
  /-- `FetchAndProcessPreKey(ctx, recipient, d)`; `-1` means all devices. -/
  prekeyFetchOk : Int → Bool
  /-- Session-store contents re-queried after the prekey fetch. -/
  sessionsAfterFetch : Except String (List Session)
  /-- `proto.Marshal` of a `Content`. -/
  marshalContent : Content → List Nat
  /-- `libsignalgo.Encrypt` per device: ciphertext-message type and payload. -/
  encryptAuthed : Nat → List Nat → Except String (Nat × List Nat)
  /-- `SealedSenderEncryptPlaintext` per device, content hint, include-E164. -/
  encryptSS : Nat → Nat → Bool → List Nat → Except String (List Nat)
  /-- WebSocket round-trip at a given retry count: error or response status. -/
  transport : Nat → Except String Nat
  /-- 409 response body at a given retry count. -/
  body409 : Nat → Body409
  /-- `ACISessionStore.RemoveSession` per device. -/
  removeSessionOk : Nat → Bool
  /-- Outcome of `handle410` at a given retry count (`none` = nil error). -/
  handle410Outcome : Nat → Option String
  /-- Outcome of `handle428` at a given retry count (`none` = nil error). -/
  handle428Outcome : Nat → Option String

/-- `cli.Store.ACIServiceID()`. -/
def SendEnv.aciServiceID (env : SendEnv) : ServiceID :=
  ⟨.aci, env.selfACI⟩

/-- The `missingDevices` loop of `handle409`: `true` means every
`FetchAndProcessPreKey` succeeded, `false` means the loop hit a failure (and
the handler returns nil early). -/
def fetchMissingDevices (fetchOk : Nat → Bool) : List Nat → Bool
  | [] => true
  | d :: rest => if fetchOk d then fetchMissingDevices fetchOk rest else false

/-- The `extraDevices` loop of `handle409`: removes each listed session,
propagating a `RemoveSession` failure. -/
def removeExtraDevices (removeOk : Nat → Bool) : List Nat → Option String
  | [] => none
  | d :: rest => if removeOk d then removeExtraDevices removeOk rest else some "RemoveSession error"

/-- `handle409` from sending.go: parse the body, fetch prekeys for missing
devices (returning nil on the first failure), remove sessions for extra
devices (propagating failures). -/
def handle409 (fetchOk : Nat → Bool) (removeOk : Nat → Bool) (body : Body409) : Option String :=
  if body.parseError then some "Unmarshal error"
  else
    let missingOk : Bool :=
      match body.missingDevices with
      | some ms => fetchMissingDevices fetchOk ms
      | none => true
    if missingOk then
      match body.extraDevices with
      | some es => removeExtraDevices removeOk es
      | none => none
    else none

/-- `buildAuthedMessageToSend`: Double-Ratchet encrypt, then map the
ciphertext-message type (PREKEY → PREKEY_BUNDLE, WHISPER → CIPHERTEXT,
anything else is an error). -/
def buildAuthedMessageToSend (env : SendEnv) (deviceID : Nat) (paddedMessage : List Nat) :
    Except String (Nat × List Nat) :=
  match env.encryptAuthed deviceID paddedMessage with
  | .error e => .error e
  | .ok (cipherMessageType, payload) =>
    if cipherMessageType = CiphertextMessageTypePreKey then
      .ok (Envelope_PREKEY_BUNDLE, payload)
    else if cipherMessageType = CiphertextMessageTypeWhisper then
      .ok (Envelope_CIPHERTEXT, payload)
    else .error "unknown message type"

/-- `buildSSMessageToSend`: sealed-sender encrypt (the sender certificate
retrieval is folded into the encryption oracle); the envelope type is always
UNIDENTIFIED_SENDER. -/
def buildSSMessageToSend (env : SendEnv) (deviceID : Nat) (paddedMessage : List Nat)
    (contentHint : Nat) (includeE164 : Bool) : Except String (Nat × List Nat) :=
  match env.encryptSS deviceID contentHint includeE164 paddedMessage with
  | .error e => .error e
  | .ok payload => .ok (Envelope_UNIDENTIFIED_SENDER, payload)

/-- The encryption-mode selection inside the per-address loop: sealed-sender
encrypt (with E164 included iff not a group send and the account shares its
phone number with everybody) when `unauthenticated`, Double-Ratchet encrypt
otherwise. -/
def encryptForDevice (env : SendEnv) (content : Content) (unauthenticated isGroup : Bool)
    (deviceID : Nat) (paddedMessage : List Nat) : Except String (Nat × List Nat) :=
  if unauthenticated then
    buildSSMessageToSend env deviceID paddedMessage (getContentHint content)
      (!isGroup && env.phoneSharingEverybody)
  else
    buildAuthedMessageToSend env deviceID paddedMessage

/-- The per-address loop of `buildMessagesToSend`: skip the sender's own
device, marshal + pad the content, encrypt for the device on the selected
path, and emit one `MyMessage` per remaining address. -/
def buildMessageLoop (env : SendEnv) (recipient : ServiceID) (content : Content)
    (unauthenticated isGroup : Bool) : List Session → Except String (List MyMessage)
  | [] => .ok []
  | s :: rest =>
    if recipient = env.aciServiceID ∧ s.deviceID = env.selfDeviceID then
      buildMessageLoop env recipient content unauthenticated isGroup rest
    else
      match addPadding 3 (env.marshalContent content) with
      | .error e => .error e
      | .ok paddedMessage =>
        match encryptForDevice env content unauthenticated isGroup s.deviceID paddedMessage with
        | .error e => .error e
        | .ok (envelopeType, encryptedPayload) =>
          match buildMessageLoop env recipient content unauthenticated isGroup rest with
          | .error e => .error e
          | .ok msgs =>
            .ok (⟨envelopeType, s.deviceID, s.registrationID, encryptedPayload⟩ :: msgs)

/-- `buildMessagesToSend`: enumerate sessions for the recipient, fetching a
prekey bundle for all devices when there are none, then run the per-address
loop (`checkForErrorWithSessions` rejects an empty session list). -/
def buildMessagesToSend (env : SendEnv) (recipient : ServiceID) (content : Content)
    (unauthenticated isGroup : Bool) : Except String (List MyMessage) :=
  let queried : Except String (List Session) :=
    match env.sessionsFirst with
    | .ok l =>
      if l.length = 0 then
        if env.prekeyFetchOk (-1) then env.sessionsAfterFetch
        else .error "prekey fetch error"
      else .ok l
    | .error e => .error e
  match queried with
  | .error e => .error e
  | .ok l =>
    if l.length = 0 then .error "no addresses or session records"
    else buildMessageLoop env recipient content unauthenticated isGroup l

/-- The profile-key mutation at the top of `sendContent`: when the content
carries a DataMessage and the sender's profile key can be read, set
`DataMessage.ProfileKey`; on a lookup error, log only and leave the content
unchanged. -/
def applyProfileKey (pk : Except String (List Nat)) (c : Content) : Content :=
  match c.dataMessage with
  | none => c
  | some dm =>
    match pk with
    | .error _ => c
    | .ok key => { c with dataMessage := some { dm with profileKey := some key } }

/-- The `useUnidentifiedSender` downgrade chain of `sendContent` (entered
only when the recipient is not the sender's own PNI): sends to the own ACI
and to any PNI are forced onto the authenticated path. -/
def forceAuthedForRecipient (env : SendEnv) (recipient : ServiceID)
    (useUnidentifiedSender : Bool) : Bool :=
  if recipient.kind = .aci ∧ recipient.uuid = env.selfACI then false
  else if recipient.kind = .pni then false
  else useUnidentifiedSender

/-- The access-key block of `sendContent`: a profile-key lookup error is
fatal; an absent key or a failed access-key derivation downgrades to the
authenticated path. Returns the final `useUnidentifiedSender` flag and the
derived access key, if any. -/
def deriveAccess (env : SendEnv) (recipient : ServiceID) (useUnidentifiedSender : Bool) :
    Except String (Bool × Option Nat) :=
  if useUnidentifiedSender then
    match env.recipientProfileKey recipient.uuid with
    | .error e => .error ("failed to get profile key: " ++ e)
    | .ok none => .ok (false, none)
    | .ok (some pk) =>
      match env.deriveAccessKey pk with
      | none => .ok (false, none)
      | some ak => .ok (true, some ak)
  else .ok (false, none)

/-- One transport attempt: the retry count it was made at, the socket it
used (unidentified vs authed) and the JSON batch it carried. -/
structure Attempt where
  retryCount : Nat
  unidentified : Bool
  batch : MyMessages
deriving DecidableEq

/-- Observable outcome of `sendContent`: the returned value (sent
unidentified flag or error), the transport attempts made (in order), the
number of `buildMessagesToSend` invocations, and the content after the
profile-key mutation. -/
structure SendOutcome where
  result : Except String Bool
  attempts : List Attempt
  builds : Nat
  usedContent : Content

/-- The status-code handler selection inside `sendContent`'s retryable
branch (409/410/428 run a handler; 500/503 retry without one). -/
def handlerFor (env : SendEnv) (status retryCount : Nat) : Option String :=
  if status = 409 then
    handle409 (fun d => env.prekeyFetchOk (Int.ofNat d)) env.removeSessionOk
      (env.body409 retryCount)
  else if status = 410 then env.handle410Outcome retryCount
  else if status = 428 then env.handle428Outcome retryCount
  else none

/-- The status dispatch at the bottom of `sendContent`: retryable statuses
run their handler and recurse; a 401 on the sealed path recurses without
sealed sender; any other non-200 status is an error. -/
def dispatchStatus (env : SendEnv) (retrySend : Bool → SendOutcome) (c : Content)
    (retryCount : Nat) (u2 : Bool) (att : Attempt) (status : Nat) : SendOutcome :=
  if status = 409 ∨ status = 410 ∨ status = 428 ∨ status = 500 ∨ status = 503 then
    match handlerFor env status retryCount with
    | some e => ⟨.error e, [att], 1, c⟩
    | none =>
      let out := retrySend u2
      ⟨out.result, att :: out.attempts, 1 + out.builds, c⟩
  else if status = 401 ∧ u2 then
    let out := retrySend false
    ⟨out.result, att :: out.attempts, 1 + out.builds, c⟩
  else if status ≠ 200 then
    ⟨.error ("unexpected status code while sending: " ++ toString status), [att], 1, c⟩
  else
    ⟨.ok u2, [att], 1, c⟩

/-- The body of `sendContent` below the retry-count and own-PNI guards.
`retrySend u'` stands for the recursive call at `retryCount + 1` with the
(possibly downgraded) unidentified-sender flag `u'`; the content `c` has
already received the profile-key mutation. -/
def sendContentAttempt (env : SendEnv) (recipient : ServiceID) (messageTimestamp : Nat)
    (retrySend : Bool → SendOutcome) (c : Content) (retryCount : Nat)
    (useUnidentifiedSender isGroup : Bool) : SendOutcome :=
  match deriveAccess env recipient
      (forceAuthedForRecipient env recipient useUnidentifiedSender) with
  | .error e => ⟨.error e, [], 0, c⟩
  | .ok (u2, _accessKey) =>
    match buildMessagesToSend env recipient c u2 isGroup with
    | .error e => ⟨.error e, [], 1, c⟩
    | .ok msgs =>
      let att : Attempt := ⟨retryCount, u2, ⟨messageTimestamp, false, isUrgent c, msgs⟩⟩
      match env.transport retryCount with
      | .error e => ⟨.error e, [att], 1, c⟩
      | .ok status => dispatchStatus env retrySend c retryCount u2 att status

/-- `sendContent` from sending.go, as a function of the environment.  The
recursion mirrors the source: the profile-key mutation happens first, then
the retry-count guard, the own-PNI guard, and the attempt itself; on a
retryable status (handler permitting) the send recurses with
`retryCount + 1`, and a 401 on the sealed path recurses on the
authenticated path. -/
def sendContent (env : SendEnv) (recipient : ServiceID) (messageTimestamp : Nat)
    (content : Content) (retryCount : Nat) (useUnidentifiedSender isGroup : Bool) :
    SendOutcome :=
  let c := applyProfileKey env.ownProfileKey content
  if _h3 : 3 < retryCount then
    ⟨.error "too many retries", [], 0, c⟩
  else if recipient.kind = .pni ∧ recipient.uuid = env.selfPNI then
    ⟨.error "can't send to own PNI", [], 0, c⟩
  else
    sendContentAttempt env recipient messageTimestamp
      (fun u' => sendContent env recipient messageTimestamp c (retryCount + 1) u' isGroup)
      c retryCount useUnidentifiedSender isGroup
termination_by 4 - retryCount
decreasing_by
  all_goals omega

lemma sendContent_too_many (env : SendEnv) (recipient : ServiceID) (ts : Nat) (c : Content)
    (u g : Bool) (rc : Nat) (h : 3 < rc) :
    sendContent env recipient ts c rc u g =
      ⟨.error "too many retries", [], 0, applyProfileKey env.ownProfileKey c⟩ := by
  rw [sendContent]
  rw [dif_pos h]

lemma sendContent_step (env : SendEnv) (recipient : ServiceID) (ts : Nat) (c : Content)
    (rc : Nat) (u g : Bool) (h : ¬ 3 < rc) :
    sendContent env recipient ts c rc u g =
      if recipient.kind = .pni ∧ recipient.uuid = env.selfPNI then
        ⟨.error "can't send to own PNI", [], 0, applyProfileKey env.ownProfileKey c⟩
      else
        sendContentAttempt env recipient ts
          (fun u' =>
            sendContent env recipient ts (applyProfileKey env.ownProfileKey c) (rc + 1) u' g)
          (applyProfileKey env.ownProfileKey c) rc u g := by
  rw [sendContent]
  rw [dif_neg h]

lemma applyProfileKey_idem (pk : Except String (List Nat)) (c : Content) :
    applyProfileKey pk (applyProfileKey pk c) = applyProfileKey pk c := by
  unfold applyProfileKey
  cases hdm : c.dataMessage <;> cases pk <;> simp [hdm]

lemma isUrgent_applyProfileKey (pk : Except String (List Nat)) (c : Content) :
    isUrgent (applyProfileKey pk c) = isUrgent c := by
  unfold applyProfileKey isUrgent
  cases hdm : c.dataMessage <;> cases pk <;> simp [hdm]

lemma forceAuthed_pni (env : SendEnv) (recipient : ServiceID) (u : Bool)
    (h : recipient.kind = .pni) : forceAuthedForRecipient env recipient u = false := by
  unfold forceAuthedForRecipient
  simp [h]

lemma deriveAccess_false (env : SendEnv) (recipient : ServiceID) :
    deriveAccess env recipient false = .ok (false, none) := rfl

/-- Specification of one attempt: the batch carries the caller's timestamp,
`online = false`, the urgency of the content, and messages built by
`buildMessagesToSend` with the socket flag the attempt used — which is
`false` whenever the recipient is a PNI. -/
def attemptOK (env : SendEnv) (recipient : ServiceID) (ts : Nat) (c : Content) (g : Bool)
    (a : Attempt) : Prop :=
  a.batch.timestamp = ts ∧ a.batch.online = false ∧ a.batch.urgent = isUrgent c ∧
  buildMessagesToSend env recipient c a.unidentified g = .ok a.batch.messages ∧
  (recipient.kind = .pni → a.unidentified = false)

lemma dispatchStatus_spec (env : SendEnv) (recipient : ServiceID) (ts : Nat)
    (retrySend : Bool → SendOutcome) (c : Content) (rc : Nat) (u2 : Bool)
    (att : Attempt) (status : Nat) (g : Bool)
    (hrc : rc ≤ 3) (hatt : att.retryCount = rc)
    (hattOK : attemptOK env recipient ts c g att)
    (hretry : ∀ u',
      ((retrySend u').attempts.map Attempt.retryCount =
        List.range' (rc + 1) (retrySend u').attempts.length) ∧
      (retrySend u').attempts.length ≤ 4 - (rc + 1) ∧
      ∀ a ∈ (retrySend u').attempts, attemptOK env recipient ts c g a) :
    ((dispatchStatus env retrySend c rc u2 att status).attempts.map Attempt.retryCount =
      List.range' rc (dispatchStatus env retrySend c rc u2 att status).attempts.length) ∧
    (dispatchStatus env retrySend c rc u2 att status).attempts.length ≤ 4 - rc ∧
    ∀ a ∈ (dispatchStatus env retrySend c rc u2 att status).attempts,
      attemptOK env recipient ts c g a := by
  have hsingle :
      ([att].map Attempt.retryCount = List.range' rc ([att].length)) ∧
      [att].length ≤ 4 - rc ∧ ∀ a ∈ [att], attemptOK env recipient ts c g a := by
    refine ⟨by simp [List.range', hatt], by simp; omega, ?_⟩
    intro a ha
    simp at ha
    subst ha
    exact hattOK
  have hcons : ∀ u',
      ((att :: (retrySend u').attempts).map Attempt.retryCount =
        List.range' rc (att :: (retrySend u').attempts).length) ∧
      (att :: (retrySend u').attempts).length ≤ 4 - rc ∧
      ∀ a ∈ att :: (retrySend u').attempts, attemptOK env recipient ts c g a := by
    intro u'
    obtain ⟨hmap, hlen, hall⟩ := hretry u'
    refine ⟨?_, by simp; omega, ?_⟩
    · rw [List.length_cons, List.range'_succ]
      simp only [List.map_cons, hmap, hatt]
    · intro a ha
      rcases List.mem_cons.mp ha with ha | ha
      · subst ha
        exact hattOK
      · exact hall a ha
  unfold dispatchStatus
  split
  · split
    · exact hsingle
    · exact hcons u2
  · split
    · exact hcons false
    · split
      · exact hsingle
      · exact hsingle

lemma sendContentAttempt_spec (env : SendEnv) (recipient : ServiceID) (ts : Nat)
    (retrySend : Bool → SendOutcome) (c : Content) (rc : Nat) (u g : Bool)
    (hrc : rc ≤ 3)
    (hretry : ∀ u',
      ((retrySend u').attempts.map Attempt.retryCount =
        List.range' (rc + 1) (retrySend u').attempts.length) ∧
      (retrySend u').attempts.length ≤ 4 - (rc + 1) ∧
      ∀ a ∈ (retrySend u').attempts, attemptOK env recipient ts c g a) :
    ((sendContentAttempt env recipient ts retrySend c rc u g).attempts.map Attempt.retryCount =
      List.range' rc (sendContentAttempt env recipient ts retrySend c rc u g).attempts.length) ∧
    (sendContentAttempt env recipient ts retrySend c rc u g).attempts.length ≤ 4 - rc ∧
    ∀ a ∈ (sendContentAttempt env recipient ts retrySend c rc u g).attempts,
      attemptOK env recipient ts c g a := by
  have hu2pni : ∀ u2 ak, deriveAccess env recipient (forceAuthedForRecipient env recipient u) =
      .ok (u2, ak) → recipient.kind = .pni → u2 = false := by
    intro u2 ak hda hpni
    rw [forceAuthed_pni env recipient u hpni, deriveAccess_false] at hda
    exact (Prod.mk.injEq _ _ _ _ ▸ (Except.ok.inj hda)).1.symm
  rcases heq : deriveAccess env recipient (forceAuthedForRecipient env recipient u) with e | ⟨u2, ak⟩
  · simp [sendContentAttempt, heq, List.range']
  · rcases hbuild : buildMessagesToSend env recipient c u2 g with e | msgs
    · simp [sendContentAttempt, heq, hbuild, List.range']
    · rcases htr : env.transport rc with e | status
      · simp only [sendContentAttempt, heq, hbuild, htr]
        refine ⟨by simp [List.range'], by simp; omega, ?_⟩
        intro a ha
        simp at ha
        subst ha
        exact ⟨rfl, rfl, rfl, hbuild, hu2pni u2 ak heq⟩
      · simp only [sendContentAttempt, heq, hbuild, htr]
        exact dispatchStatus_spec env recipient ts retrySend c rc u2 _ status g hrc rfl
          ⟨rfl, rfl, rfl, hbuild, hu2pni u2 ak heq⟩ hretry

/-- Master induction over the retry recursion: the attempts of a
`sendContent` call carry consecutive retry counts starting at `retryCount`,
there are at most `4 - retryCount` of them, and each satisfies
`attemptOK` at the profile-key-mutated content. -/
lemma sendContent_spec (env : SendEnv) (recipient : ServiceID) (ts : Nat) (g : Bool) :
    ∀ n rc (c : Content) (u : Bool), 4 - rc ≤ n →
      ((sendContent env recipient ts c rc u g).attempts.map Attempt.retryCount =
        List.range' rc (sendContent env recipient ts c rc u g).attempts.length) ∧
      (sendContent env recipient ts c rc u g).attempts.length ≤ 4 - rc ∧
      ∀ a ∈ (sendContent env recipient ts c rc u g).attempts,
        attemptOK env recipient ts (applyProfileKey env.ownProfileKey c) g a := by
  intro n
  induction n with
  | zero =>
    intro rc c u hn
    rw [sendContent_too_many env recipient ts c u g rc (by omega)]
    simp [List.range']
  | succ n ih =>
    intro rc c u hn
    by_cases hrc : 3 < rc
    · rw [sendContent_too_many env recipient ts c u g rc hrc]
      simp [List.range']
    · rw [sendContent_step env recipient ts c rc u g hrc]
      split
      · simp [List.range']
      · refine sendContentAttempt_spec env recipient ts _ _ rc u g (by omega) ?_
        intro u'
        have h := ih (rc + 1) (applyProfileKey env.ownProfileKey c) u' (by omega)
        rw [applyProfileKey_idem] at h
        exact h

lemma buildAuthedMessageToSend_types (env : SendEnv) (dev : Nat) (padded : List Nat)
    (etype : Nat) (payload : List Nat)
    (h : buildAuthedMessageToSend env dev padded = .ok (etype, payload)) :
    etype = Envelope_PREKEY_BUNDLE ∨ etype = Envelope_CIPHERTEXT := by
  unfold buildAuthedMessageToSend at h
  split at h
  · exact absurd h (by simp)
  · split at h
    · simp only [Except.ok.injEq, Prod.mk.injEq] at h
      exact Or.inl h.1.symm
    · split at h
      · simp only [Except.ok.injEq, Prod.mk.injEq] at h
        exact Or.inr h.1.symm
      · exact absurd h (by simp)

lemma buildSSMessageToSend_type (env : SendEnv) (dev : Nat) (padded : List Nat)
    (hint : Nat) (e164 : Bool) (etype : Nat) (payload : List Nat)
    (h : buildSSMessageToSend env dev padded hint e164 = .ok (etype, payload)) :
    etype = Envelope_UNIDENTIFIED_SENDER := by
  unfold buildSSMessageToSend at h
  split at h
  · exact absurd h (by simp)
  · simp only [Except.ok.injEq, Prod.mk.injEq] at h
    exact h.1.symm

lemma encryptForDevice_types (env : SendEnv) (c : Content) (unauth g : Bool)
    (dev : Nat) (padded : List Nat) (etype : Nat) (payload : List Nat)
    (h : encryptForDevice env c unauth g dev padded = .ok (etype, payload)) :
    (unauth = false → etype = Envelope_PREKEY_BUNDLE ∨ etype = Envelope_CIPHERTEXT) ∧
    (unauth = true → etype = Envelope_UNIDENTIFIED_SENDER) := by
  cases unauth
  · simp only [encryptForDevice, Bool.false_eq_true, if_false] at h
    exact ⟨fun _ => buildAuthedMessageToSend_types env dev padded etype payload h,
      by simp⟩
  · simp only [encryptForDevice, if_true] at h
    exact ⟨by simp,
      fun _ => buildSSMessageToSend_type env dev padded _ _ etype payload h⟩

/-- Per-message facts about the per-address loop: no message targets the
sender's own (ACI, self-device-id) address, every destination device comes
from the enumerated sessions, and the envelope type is determined by the
encryption path. -/
lemma buildMessageLoop_spec (env : SendEnv) (recipient : ServiceID) (c : Content)
    (unauth g : Bool) :
    ∀ (l : List Session) (msgs : List MyMessage),
      buildMessageLoop env recipient c unauth g l = .ok msgs →
      ∀ m ∈ msgs,
        (¬(recipient = env.aciServiceID ∧ m.destinationDeviceID = env.selfDeviceID)) ∧
        m.destinationDeviceID ∈ l.map Session.deviceID ∧
        (unauth = false → m.type = Envelope_PREKEY_BUNDLE ∨ m.type = Envelope_CIPHERTEXT) ∧
        (unauth = true → m.type = Envelope_UNIDENTIFIED_SENDER) := by
  intro l
  induction l with
  | nil =>
    intro msgs h m hm
    simp only [buildMessageLoop, Except.ok.injEq] at h
    subst h
    simp at hm
  | cons s rest ih =>
    intro msgs h m hm
    simp only [buildMessageLoop] at h
    split at h
    · obtain ⟨h1, h2, h3, h4⟩ := ih msgs h m hm
      exact ⟨h1, by simp only [List.map_cons]; exact List.mem_cons_of_mem _ h2, h3, h4⟩
    case isFalse hcond =>
      rcases hpad : addPadding 3 (env.marshalContent c) with e | padded <;> rw [hpad] at h <;>
        dsimp only at h
      · exact absurd h (by simp)
      · rcases henc : encryptForDevice env c unauth g s.deviceID padded with e | ⟨etype, payload⟩ <;>
          rw [henc] at h <;> dsimp only at h
        · exact absurd h (by simp)
        · rcases hrest : buildMessageLoop env recipient c unauth g rest with e | msgs' <;>
            rw [hrest] at h <;> dsimp only at h
          · exact absurd h (by simp)
          · simp only [Except.ok.injEq] at h
            subst h
            rcases List.mem_cons.mp hm with rfl | hmem
            · obtain ⟨ht1, ht2⟩ := encryptForDevice_types env c unauth g s.deviceID padded
                etype payload henc
              exact ⟨hcond, by simp, ht1, ht2⟩
            · obtain ⟨h1, h2, h3, h4⟩ := ih msgs' hrest m hmem
              exact ⟨h1, by simp only [List.map_cons]; exact List.mem_cons_of_mem _ h2, h3, h4⟩

/-- A successful `buildMessagesToSend` is a successful run of the loop on
some session list. -/
lemma buildMessagesToSend_ok_loop (env : SendEnv) (recipient : ServiceID) (c : Content)
    (unauth g : Bool) (msgs : List MyMessage)
    (h : buildMessagesToSend env recipient c unauth g = .ok msgs) :
    ∃ l, buildMessageLoop env recipient c unauth g l = .ok msgs := by
  simp only [buildMessagesToSend] at h
  repeat' split at h
  all_goals first
  | exact ⟨_, h⟩
  | simp at h

/-- C2: entering `sendContent` with `retryCount > 3` fails with "too many
retries" without building messages or contacting the transport; a top-level
send (`retryCount = 0`) makes transport attempts whose retry counts are
exactly 0, 1, 2, … (each recursion incrementing by one), and makes at most
4 attempts in total — the initial attempt plus at most 3 retries — so the
recursion terminates. -/
theorem claim_C2_retry_bound (env : SendEnv) (recipient : ServiceID) (ts : Nat)
    (c : Content) (g : Bool) :
    (∀ rc u, 3 < rc →
      (sendContent env recipient ts c rc u g).result = .error "too many retries" ∧
      (sendContent env recipient ts c rc u g).attempts = [] ∧
      (sendContent env recipient ts c rc u g).builds = 0) ∧
    (∀ u,
      ((sendContent env recipient ts c 0 u g).attempts.map Attempt.retryCount =
        List.range' 0 (sendContent env recipient ts c 0 u g).attempts.length) ∧
      (sendContent env recipient ts c 0 u g).attempts.length ≤ 4) := by
  constructor
  · intro rc u h
    rw [sendContent_too_many env recipient ts c u g rc h]
    exact ⟨rfl, rfl, rfl⟩
  · intro u
    obtain ⟨hmap, hlen, -⟩ := sendContent_spec env recipient ts g 4 0 c u (by omega)
    exact ⟨hmap, by omega⟩

/-- A concrete environment used by the witnesses: two sessions for the
recipient (device 1 and the sender's own device 2), working encryption, and
a transport that always answers 200. -/
def witnessEnv : SendEnv where
  selfACI := 10
  selfPNI := 11
  selfDeviceID := 2
  phoneSharingEverybody := false
  ownProfileKey := .ok [1]
  recipientProfileKey := fun _ => .ok (some 5)
  deriveAccessKey := fun _ => some 7
  sessionsFirst := .ok [⟨1, 100⟩, ⟨2, 200⟩]
  prekeyFetchOk := fun _ => true
  sessionsAfterFetch := .ok [⟨1, 100⟩]
  marshalContent := fun _ => [3, 1, 4]
  encryptAuthed := fun d _ => .ok (CiphertextMessageTypeWhisper, [d])
  encryptSS := fun d _ _ _ => .ok [d, d]
  transport := fun _ => .ok 200
  body409 := fun _ => ⟨false, none, none⟩
  removeSessionOk := fun _ => true
  handle410Outcome := fun _ => none
  handle428Outcome := fun _ => none

/-- Witness for C2: the retry-count hypothesis discharged at 4. -/
theorem claim_C2_retry_bound_witness :
    3 < 4 ∧
    (sendContent witnessEnv ⟨.aci, 1⟩ 0 emptyContent 4 true false).result =
      .error "too many retries" ∧
    (sendContent witnessEnv ⟨.aci, 1⟩ 0 emptyContent 4 true false).attempts = [] ∧
    (sendContent witnessEnv ⟨.aci, 1⟩ 0 emptyContent 4 true false).builds = 0 := by
  have h := (claim_C2_retry_bound witnessEnv ⟨.aci, 1⟩ 0 emptyContent false).1 4 true (by omega)
  exact ⟨by omega, h.1, h.2.1, h.2.2⟩

/-- C3: for a PNI recipient no envelope of type UNIDENTIFIED_SENDER is ever
produced — `sendContent` forces `useUnidentifiedSender` to false for PNI
recipients, so every transport attempt runs on the authenticated socket and
every envelope in every batch has a non-sealed type. -/
theorem claim_C3_pni_never_sealed (env : SendEnv) (recipient : ServiceID) (ts : Nat)
    (c : Content) (rc : Nat) (u g : Bool) (hpni : recipient.kind = .pni) :
    ∀ a ∈ (sendContent env recipient ts c rc u g).attempts,
      a.unidentified = false ∧
      ∀ m ∈ a.batch.messages, m.type ≠ Envelope_UNIDENTIFIED_SENDER := by
  intro a ha
  obtain ⟨-, -, hall⟩ := sendContent_spec env recipient ts g (4 - rc) rc c u (Nat.le_refl _)
  obtain ⟨-, -, -, hbuild, hpniu⟩ := hall a ha
  have hu := hpniu hpni
  refine ⟨hu, ?_⟩
  rw [hu] at hbuild
  obtain ⟨l, hloop⟩ := buildMessagesToSend_ok_loop env recipient _ false g _ hbuild
  intro m hm
  obtain ⟨-, -, htype, -⟩ := buildMessageLoop_spec env recipient _ false g l _ hloop m hm
  rcases htype rfl with h | h <;> rw [h] <;> decide

/-- Witness for C3: the PNI hypothesis discharged at a concrete recipient. -/
theorem claim_C3_pni_never_sealed_witness :
    (ServiceID.mk .pni 7).kind = .pni ∧
    ∀ a ∈ (sendContent witnessEnv ⟨.pni, 7⟩ 0 emptyContent 0 true false).attempts,
      a.unidentified = false ∧
      ∀ m ∈ a.batch.messages, m.type ≠ Envelope_UNIDENTIFIED_SENDER :=
  ⟨rfl, claim_C3_pni_never_sealed witnessEnv ⟨.pni, 7⟩ 0 emptyContent 0 true false rfl⟩

/-- C4: the envelopes returned by `buildMessagesToSend` never contain an
envelope whose destination is the sender's own (ACI, self-device-id) pair:
when the recipient equals the local ACI ServiceID, the address whose
device-id equals the local device-id is skipped. -/
theorem claim_C4_no_self_envelope (env : SendEnv) (recipient : ServiceID) (c : Content)
    (unauth g : Bool) (msgs : List MyMessage)
    (h : buildMessagesToSend env recipient c unauth g = .ok msgs) :
    ∀ m ∈ msgs, ¬(recipient = env.aciServiceID ∧ m.destinationDeviceID = env.selfDeviceID) := by
  obtain ⟨l, hloop⟩ := buildMessagesToSend_ok_loop env recipient c unauth g msgs h
  intro m hm
  exact (buildMessageLoop_spec env recipient c unauth g l msgs hloop m hm).1

set_option maxRecDepth 8000 in
/-- Witness for C4: a concrete build addressed to the sender's own ACI whose
session list contains the sender's own device; the build succeeds and skips
that device. -/
theorem claim_C4_no_self_envelope_witness :
    buildMessagesToSend witnessEnv witnessEnv.aciServiceID emptyContent false false =
      .ok [⟨Envelope_CIPHERTEXT, 1, 100, [1]⟩] ∧
    ∀ m ∈ [(⟨Envelope_CIPHERTEXT, 1, 100, [1]⟩ : MyMessage)],
      ¬(witnessEnv.aciServiceID = witnessEnv.aciServiceID ∧
        m.destinationDeviceID = witnessEnv.selfDeviceID) := by
  have hb : buildMessagesToSend witnessEnv witnessEnv.aciServiceID emptyContent false false =
      .ok [⟨Envelope_CIPHERTEXT, 1, 100, [1]⟩] := by decide
  exact ⟨hb, claim_C4_no_self_envelope witnessEnv witnessEnv.aciServiceID emptyContent
    false false _ hb⟩

/-- C7: the urgent flag of every outgoing batch is true iff the Content
carries a DataMessage, CallMessage, StoryMessage, EditMessage, or a
SyncMessage whose Sent or Request field is non-nil; every other Content is
non-urgent. -/
theorem claim_C7_urgent (c : Content) :
    (isUrgent c = true ↔
      (c.dataMessage.isSome = true ∨ c.callMessage.isSome = true ∨
        c.storyMessage.isSome = true ∨ c.editMessage.isSome = true ∨
        ∃ sm, c.syncMessage = some sm ∧
          (sm.sent.isSome = true ∨ sm.request.isSome = true))) ∧
    ∀ (env : SendEnv) (recipient : ServiceID) (ts rc : Nat) (u g : Bool),
      ((sendContent env recipient ts c rc u g).attempts.all
        (fun a => a.batch.urgent == isUrgent c)) = true := by
  constructor
  · rcases hsm : c.syncMessage with _ | sm <;>
      simp [isUrgent, isSyncMessageUrgent, hsm] <;> tauto
  · intro env recipient ts rc u g
    rw [List.all_eq_true]
    intro a ha
    obtain ⟨-, -, hall⟩ := sendContent_spec env recipient ts g (4 - rc) rc c u (Nat.le_refl _)
    obtain ⟨-, -, hurg, -⟩ := hall a ha
    rw [hurg, isUrgent_applyProfileKey]
    exact beq_self_eq_true _

/-- Witness for C7: a DataMessage-bearing Content is urgent, through the
equivalence of `claim_C7_urgent`. -/
theorem claim_C7_urgent_witness :
    isUrgent ⟨some ⟨5, none, 0⟩, none, none, none, none, none, none, none⟩ = true :=
  (claim_C7_urgent _).1.mpr (Or.inl rfl)

lemma fetchMissingDevices_false (fetchOk : Nat → Bool) :
    ∀ ms : List Nat, (∃ d ∈ ms, fetchOk d = false) → fetchMissingDevices fetchOk ms = false := by
  intro ms
  induction ms with
  | nil =>
    rintro ⟨d, hd, -⟩
    simp at hd
  | cons d rest ih =>
    rintro ⟨d', hd', hf⟩
    unfold fetchMissingDevices
    by_cases hfd : fetchOk d = true
    · rw [if_pos hfd]
      rcases List.mem_cons.mp hd' with rfl | hmem
      · rw [hf] at hfd
        cases hfd
      · exact ih ⟨d', hmem, hf⟩
    · rw [if_neg hfd]

/-- C9: when the 409 body parses and reports missing devices, a failing
prekey fetch-and-process for one of them makes `handle409` return nil (not
the error), so the caller proceeds to retry the send as if the device-list
repair had succeeded. -/
theorem claim_C9_handle409_swallows (fetchOk removeOk : Nat → Bool) (body : Body409)
    (ms : List Nat) (hparse : body.parseError = false)
    (hms : body.missingDevices = some ms) (hfail : ∃ d ∈ ms, fetchOk d = false) :
    handle409 fetchOk removeOk body = none := by
  simp [handle409, hparse, hms, fetchMissingDevices_false fetchOk ms hfail]

/-- Witness for C9: a body listing missing device 3 whose prekey fetch
fails. -/
theorem claim_C9_handle409_swallows_witness :
    handle409 (fun _ => false) (fun _ => true) ⟨false, some [3], some [4]⟩ = none :=
  claim_C9_handle409_swallows (fun _ => false) (fun _ => true) ⟨false, some [3], some [4]⟩
    [3] rfl rfl ⟨3, by simp, rfl⟩

lemma sendContentAttempt_usedContent (env : SendEnv) (recipient : ServiceID) (ts : Nat)
    (retrySend : Bool → SendOutcome) (c : Content) (rc : Nat) (u g : Bool) :
    (sendContentAttempt env recipient ts retrySend c rc u g).usedContent = c := by
  unfold sendContentAttempt dispatchStatus
  repeat' split
  all_goals rfl

lemma sendContent_usedContent (env : SendEnv) (recipient : ServiceID) (ts : Nat)
    (c : Content) (rc : Nat) (u g : Bool) :
    (sendContent env recipient ts c rc u g).usedContent =
      applyProfileKey env.ownProfileKey c := by
  by_cases h : 3 < rc
  · rw [sendContent_too_many env recipient ts c u g rc h]
  · rw [sendContent_step env recipient ts c rc u g h]
    split
    · rfl
    · exact sendContentAttempt_usedContent env recipient ts _ _ rc u g

/-- C10: `sendContent` mutates the Content before encryption by setting
`DataMessage.ProfileKey` to the sender's own profile key, leaving every
other field (of the Content and of the DataMessage) unchanged; if the
profile-key lookup fails — or the Content has no DataMessage — the content
is used exactly as passed. -/
theorem claim_C10_profile_key (env : SendEnv) (recipient : ServiceID) (ts : Nat)
    (c : Content) (rc : Nat) (u g : Bool) :
    (∀ dm key, c.dataMessage = some dm → env.ownProfileKey = .ok key →
      (sendContent env recipient ts c rc u g).usedContent =
        { c with dataMessage := some { dm with profileKey := some key } }) ∧
    (∀ e, env.ownProfileKey = .error e →
      (sendContent env recipient ts c rc u g).usedContent = c) ∧
    (c.dataMessage = none → (sendContent env recipient ts c rc u g).usedContent = c) := by
  have hused := sendContent_usedContent env recipient ts c rc u g
  refine ⟨?_, ?_, ?_⟩
  · intro dm key hdm hpk
    rw [hused]
    simp only [applyProfileKey, hdm, hpk]
  · intro e hpk
    rw [hused]
    rcases hdm : c.dataMessage with _ | dm <;> simp only [applyProfileKey, hdm, hpk]
  · intro hdm
    rw [hused]
    simp only [applyProfileKey, hdm]

/-- Witness for C10: a concrete DataMessage whose profile key gets filled in
from the environment. -/
theorem claim_C10_profile_key_witness :
    (⟨some ⟨5, none, 0⟩, none, none, none, none, none, none, none⟩ : Content).dataMessage =
      some ⟨5, none, 0⟩ ∧
    witnessEnv.ownProfileKey = .ok [1] ∧
    (sendContent witnessEnv ⟨.aci, 1⟩ 0
        ⟨some ⟨5, none, 0⟩, none, none, none, none, none, none, none⟩ 0 true false).usedContent =
      ⟨some ⟨5, some [1], 0⟩, none, none, none, none, none, none, none⟩ := by
  refine ⟨rfl, rfl, ?_⟩
  exact (claim_C10_profile_key witnessEnv ⟨.aci, 1⟩ 0
    ⟨some ⟨5, none, 0⟩, none, none, none, none, none, none, none⟩ 0 true false).1
    ⟨5, none, 0⟩ [1] rfl rfl

/-! ## `SendMessage` and the self-send / sync-copy path

`Client.SendMessage` adds policy gates, the self-send rerouting and the
sync-copy emission on top of `sendContent`.  Calls into `sendContent` are
recorded as `SendCall` events (`primary` marks the primary wire send to the
recipient; a sync copy is a non-primary send addressed to the own ACI). -/

structure SuccessfulSendResult where
  recipient : ServiceID
  recipientE164 : Option String
  unidentified : Bool
  destinationPNIIdentityKey : Option (List Nat)
deriving DecidableEq

structure FailedSendResult where
  recipient : ServiceID
  error : Option String
deriving DecidableEq

structure SendMessageResult where
  wasSuccessful : Bool
  successfulSendResult : SuccessfulSendResult
  failedSendResult : FailedSendResult
deriving DecidableEq

/-- Go zero values for the embedded result structs. -/
def emptySuccess : SuccessfulSendResult := ⟨⟨.aci, 0⟩, none, false, none⟩

def emptyFailed : FailedSendResult := ⟨⟨.aci, 0⟩, none⟩

/-- `SuccessfulSendResult{Recipient: recipientID}` as built on the gate and
self-send paths. -/
def defaultSuccess (recipientID : ServiceID) : SuccessfulSendResult :=
  ⟨recipientID, none, false, none⟩

/-- `syncMessageFromSoloDataMessage` from sending.go. -/
def syncMessageFromSoloDataMessage (nowMS : Nat) (dm : DataMessage)
    (result : SuccessfulSendResult) : Content :=
  { emptyContent with
      syncMessage := some
        { sent := some
            { message := some dm
              editMessage := none
              destinationServiceId := some result.recipient.wireString
              destinationE164 := result.recipientE164
              timestamp := some dm.timestamp
              expirationStartTimestamp := nowMS
              unidentifiedStatus := [⟨result.recipient.wireString, result.unidentified,
                result.destinationPNIIdentityKey⟩] }
          request := none
          read := [] } }

/-- `syncMessageFromSoloEditMessage` from sending.go. -/
def syncMessageFromSoloEditMessage (nowMS : Nat) (em : EditMessage)
    (result : SuccessfulSendResult) : Content :=
  { emptyContent with
      syncMessage := some
        { sent := some
            { message := none
              editMessage := some em
              destinationServiceId := some result.recipient.wireString
              destinationE164 := result.recipientE164
              timestamp := em.dataMessage.map DataMessage.timestamp
              expirationStartTimestamp := nowMS
              unidentifiedStatus := [⟨result.recipient.wireString, result.unidentified,
                result.destinationPNIIdentityKey⟩] }
          request := none
          read := [] } }

/-- `syncMessageFromReadReceiptMessage` from sending.go: nil unless the
receipt is a READ receipt and the message sender is an ACI. -/
def syncMessageFromReadReceiptMessage (rm : ReceiptMessage) (messageSender : ServiceID) :
    Option Content :=
  if rm.rtype ≠ ReceiptMessage_READ then none
  else if messageSender.kind ≠ .aci then none
  else some
    { emptyContent with
        syncMessage := some
          { sent := none
            request := none
            read := rm.timestamps.map fun t => ⟨t, toString messageSender.uuid⟩ } }

/-- One `sendContent` invocation made by `SendMessage` or `sendSyncCopy`. -/
structure SendCall where
  primary : Bool
  recipient : ServiceID
  content : Content
deriving DecidableEq

/-- Client state and collaborators for `SendMessage`. -/
structure ClientEnv where
  send : SendEnv
  /-- `howManyOtherDevicesDoWeHave`. -/
  otherDevices : Nat
  /-- `time.Now().UnixMilli()`. -/
  nowMS : Nat
  /-- The loaded recipient record's `NeedsPNISignature` flag. -/
  recipientNeedsPNISig : Bool
  /-- `SignAlternateIdentity` succeeds. -/
  signOk : Bool
  /-- `AccountRecord.GetTypingIndicators()`; `none` = AccountRecord nil. -/
  typingIndicators : Option Bool
  /-- `AccountRecord.GetReadReceipts()`; `none` = AccountRecord nil. -/
  readReceipts : Option Bool
  /-- The recipient record's E164 (`none` = absent or empty). -/
  recipientE164 : Option String
  /-- `IdentityKeyStore.GetIdentityKey` for a PNI recipient. -/
  pniIdentityKey : Except String (List Nat)

/-- The sync-content selection of `sendSyncCopy`: a solo-Data sync, a
solo-Edit sync, or (for a READ receipt) a read-receipt sync; nil for every
other content. -/
def syncContentFor (env : ClientEnv) (content : Content) (result : SuccessfulSendResult) :
    Option Content :=
  if content.dataMessage.isSome then
    content.dataMessage.map fun dm => syncMessageFromSoloDataMessage env.nowMS dm result
  else if content.editMessage.isSome then
    content.editMessage.map fun em => syncMessageFromSoloEditMessage env.nowMS em result
  else if getReceiptType content = ReceiptMessage_READ then
    content.receiptMessage.bind fun rm => syncMessageFromReadReceiptMessage rm result.recipient
  else none

/-- `sendSyncCopy` from sending.go: only with at least one other device, and
only for content with a sync shape; the sync send itself goes through
`sendContent` addressed to the own ACI, and a failure there is swallowed
(returning false). -/
def sendSyncCopy (env : ClientEnv) (content : Content) (messageTS : Nat)
    (result : SuccessfulSendResult) : Bool × List SendCall :=
  if 0 < env.otherDevices then
    match syncContentFor env content result with
    | none => (false, [])
    | some sc =>
      match (sendContent env.send env.send.aciServiceID messageTS sc 0 true false).result with
      | .error _ => (false, [⟨false, env.send.aciServiceID, sc⟩])
      | .ok _ => (true, [⟨false, env.send.aciServiceID, sc⟩])
  else (false, [])

/-- The message timestamp selection at the top of `SendMessage`. -/
def messageTimestampOf (env : ClientEnv) (content : Content) : Nat :=
  match content.dataMessage with
  | some dm => dm.timestamp
  | none =>
    match content.editMessage with
    | some em =>
      match em.dataMessage with
      | some dm => dm.timestamp
      | none => env.nowMS
    | none => env.nowMS

/-- The PNI-signature attachment performed inside `LoadAndUpdateRecipient`'s
callback: only for an ACI recipient whose record has `NeedsPNISignature`,
and only when signing succeeds. -/
def withPNISig (env : ClientEnv) (recipientID : ServiceID) (content : Content) : Content :=
  if (recipientID.kind = .aci ∧ env.recipientNeedsPNISig = true) ∧ env.signOk = true then
    { content with pniSignatureMessage := some () }
  else content

/-- `Client.SendMessage` from sending.go. -/
def SendMessage (env : ClientEnv) (recipientID : ServiceID) (content : Content) :
    SendMessageResult × List SendCall :=
  let messageTimestamp := messageTimestampOf env content
  let c1 := withPNISig env recipientID content
  if (recipientID.kind = .aci ∧ env.recipientNeedsPNISig = true) ∧
      (c1.typingMessage.isSome ∨ c1.receiptMessage.isSome) then
    let res := defaultSuccess recipientID
    let evs :=
      if getReceiptType c1 = ReceiptMessage_READ then
        (sendSyncCopy env c1 messageTimestamp res).2
      else []
    (⟨true, res, emptyFailed⟩, evs)
  else if c1.typingMessage.isSome ∧ env.typingIndicators = some false then
    (⟨true, defaultSuccess recipientID, emptyFailed⟩, [])
  else if getReceiptType c1 = ReceiptMessage_READ ∧ env.readReceipts = some false then
    let res := defaultSuccess recipientID
    (⟨true, res, emptyFailed⟩, (sendSyncCopy env c1 messageTimestamp res).2)
  else
    if recipientID = env.send.aciServiceID ∧
        ¬(c1.receiptMessage.isSome ∧ getReceiptType c1 = ReceiptMessage_DELIVERY) then
      let res := defaultSuccess recipientID
      let sync := sendSyncCopy env c1 messageTimestamp res
      (⟨sync.1, res, emptyFailed⟩, sync.2)
    else
      match (sendContent env.send recipientID messageTimestamp c1 0 true false).result with
      | .error e => (⟨false, emptySuccess, ⟨recipientID, some e⟩⟩, [⟨true, recipientID, c1⟩])
      | .ok sentUnidentified =>
        let result1 :=
          if recipientID.kind = .pni then
            { recipient := recipientID
              recipientE164 := env.recipientE164
              unidentified := sentUnidentified
              destinationPNIIdentityKey :=
                match env.pniIdentityKey with
                | .ok k => some k
                | .error _ => none : SuccessfulSendResult }
          else ⟨recipientID, none, sentUnidentified, none⟩
        let sync := sendSyncCopy env c1 messageTimestamp result1
        (⟨true, result1, emptyFailed⟩, ⟨true, recipientID, c1⟩ :: sync.2)

lemma withPNISig_receiptMessage (env : ClientEnv) (r : ServiceID) (c : Content) :
    (withPNISig env r c).receiptMessage = c.receiptMessage := by
  unfold withPNISig
  split <;> rfl

lemma withPNISig_typingMessage (env : ClientEnv) (r : ServiceID) (c : Content) :
    (withPNISig env r c).typingMessage = c.typingMessage := by
  unfold withPNISig
  split <;> rfl

lemma getReceiptType_withPNISig (env : ClientEnv) (r : ServiceID) (c : Content) :
    getReceiptType (withPNISig env r c) = getReceiptType c := by
  unfold getReceiptType
  rw [withPNISig_receiptMessage]

lemma sendSyncCopy_events_not_primary (env : ClientEnv) (content : Content) (ts : Nat)
    (result : SuccessfulSendResult) :
    ∀ ev ∈ (sendSyncCopy env content ts result).2, ev.primary = false := by
  intro ev hev
  unfold sendSyncCopy at hev
  by_cases hod : 0 < env.otherDevices
  · rw [if_pos hod] at hev
    rcases hsc : syncContentFor env content result with _ | sc <;> rw [hsc] at hev <;>
      dsimp only at hev
    · simp at hev
    · rcases hres : (sendContent env.send env.send.aciServiceID ts sc 0 true false).result
          with e | b <;> rw [hres] at hev <;> dsimp only at hev <;>
        simp at hev <;> rw [hev]
  · rw [if_neg hod] at hev
    simp at hev

/-- Concrete client environment for C8: one other device, everything
enabled, recipient record without the PNI-signature flag. -/
def selfClientEnv : ClientEnv where
  send := witnessEnv
  otherDevices := 1
  nowMS := 1000
  recipientNeedsPNISig := false
  signOk := true
  typingIndicators := none
  readReceipts := none
  recipientE164 := none
  pniIdentityKey := .error "no identity key"

def typingOnlyContent : Content := ⟨none, none, none, some 0, none, none, none, none⟩

/-- C8 is false as stated: for a typing message addressed to the own ACI
(no DELIVERY receipt, typing indicators enabled, another device present)
`SendMessage` performs no sync-copy send at all and returns
`WasSuccessful = false`, contradicting the claim that the result has
`WasSuccessful = true` whenever other devices are present. -/
theorem claim_C8_counterexample :
    ¬(typingOnlyContent.receiptMessage.isSome ∧
        getReceiptType typingOnlyContent = ReceiptMessage_DELIVERY) ∧
    0 < selfClientEnv.otherDevices ∧
    (SendMessage selfClientEnv selfClientEnv.send.aciServiceID typingOnlyContent).1.wasSuccessful
      = false ∧
    (SendMessage selfClientEnv selfClientEnv.send.aciServiceID typingOnlyContent).2 = [] := by
  exact ⟨by decide, by decide, by decide, by decide⟩

/-- C8 (amended): for a send whose recipient is the local ACI ServiceID and
whose content is not a DELIVERY receipt, no primary wire send is performed
and the result's Unidentified flag is false; when additionally no policy
gate fires (no PNI-signature flag, no typing message, read receipts not
disabled for a READ receipt), the call reduces to the sync-copy emission
alone, so `WasSuccessful` is true iff the sync copy was actually emitted
successfully (other devices exist, the content has a sync shape, and the
self-directed send succeeds) — not unconditionally. -/
theorem claim_C8_self_send (env : ClientEnv) (recipientID : ServiceID) (content : Content)
    (hself : recipientID = env.send.aciServiceID)
    (hnotdel : ¬(content.receiptMessage.isSome ∧
      getReceiptType content = ReceiptMessage_DELIVERY)) :
    (∀ ev ∈ (SendMessage env recipientID content).2, ev.primary = false) ∧
    (SendMessage env recipientID content).1.successfulSendResult.unidentified = false ∧
    (env.recipientNeedsPNISig = false → content.typingMessage = none →
      ¬(getReceiptType content = ReceiptMessage_READ ∧ env.readReceipts = some false) →
      SendMessage env recipientID content =
        (⟨(sendSyncCopy env content (messageTimestampOf env content)
            (defaultSuccess recipientID)).1, defaultSuccess recipientID, emptyFailed⟩,
         (sendSyncCopy env content (messageTimestampOf env content)
            (defaultSuccess recipientID)).2)) := by
  have hselfcond : recipientID = env.send.aciServiceID ∧
      ¬((withPNISig env recipientID content).receiptMessage.isSome ∧
        getReceiptType (withPNISig env recipientID content) = ReceiptMessage_DELIVERY) := by
    refine ⟨hself, ?_⟩
    rw [withPNISig_receiptMessage, getReceiptType_withPNISig]
    exact hnotdel
  have hevents : ∀ ev ∈ (SendMessage env recipientID content).2, ev.primary = false := by
    intro ev hev
    simp only [SendMessage] at hev
    split at hev
    · split at hev
      · exact sendSyncCopy_events_not_primary env _ _ _ ev hev
      · simp at hev
    · split at hev
      · simp at hev
      · split at hev
        · exact sendSyncCopy_events_not_primary env _ _ _ ev hev
        · exact sendSyncCopy_events_not_primary env _ _ _ ev hev
  have huid :
      (SendMessage env recipientID content).1.successfulSendResult.unidentified = false := by
    simp only [SendMessage]
    split
    · rfl
    · split
      · rfl
      · split
        · rfl
        · rfl
  refine ⟨hevents, huid, ?_⟩
  intro h3 h4 h5
  have hc1 : withPNISig env recipientID content = content := by
    unfold withPNISig
    have hno : ¬((recipientID.kind = .aci ∧ env.recipientNeedsPNISig = true) ∧
        env.signOk = true) := by
      rintro ⟨⟨-, hx⟩, -⟩
      rw [h3] at hx
      exact Bool.false_ne_true hx
    rw [if_neg hno]
  have hg1 : ¬((recipientID.kind = .aci ∧ env.recipientNeedsPNISig = true) ∧
      (content.typingMessage.isSome = true ∨ content.receiptMessage.isSome = true)) := by
    rintro ⟨⟨-, hx⟩, -⟩
    rw [h3] at hx
    exact Bool.false_ne_true hx
  have hg2 : ¬(content.typingMessage.isSome = true ∧ env.typingIndicators = some false) := by
    rintro ⟨hx, -⟩
    rw [h4] at hx
    simp at hx
  simp only [SendMessage, hc1]
  rw [if_neg hg1, if_neg hg2, if_neg h5, if_pos ⟨hself, hnotdel⟩]

def soloDataContent : Content := ⟨some ⟨5, none, 0⟩, none, none, none, none, none, none, none⟩

/-- Witness for C8 (amended) at a concrete self-addressed DataMessage. -/
theorem claim_C8_self_send_witness :
    (∀ ev ∈ (SendMessage selfClientEnv selfClientEnv.send.aciServiceID soloDataContent).2,
      ev.primary = false) ∧
    (SendMessage selfClientEnv
        selfClientEnv.send.aciServiceID soloDataContent).1.successfulSendResult.unidentified
      = false := by
  have h := claim_C8_self_send selfClientEnv selfClientEnv.send.aciServiceID soloDataContent
    rfl (by decide)
  exact ⟨h.1, h.2.1⟩

end Signalmeow
